import Mathlib

/-!
Verification of the gesture-driven 3D particle experience
(`src/components/Experience.tsx`, `src/App.tsx`, `src/types.ts`,
`src/components/UI.tsx` and the Gemini service).

The embedding is shallow: THREE.js vectors become a `Vec3` record over ℝ,
the mode enum becomes `AppMode`, the particle store becomes a `List` of
particle records, and the per-frame gesture / motion code of `animate`
becomes pure functions of the frame's inputs.  `Math.random()` draws are
passed in as explicit parameters.
-/

/-- A 3D vector over the reals, modelling `THREE.Vector3`. -/
structure Vec3 where
  x : ℝ
  y : ℝ
  z : ℝ


/-- The zero vector: `new THREE.Vector3()` and the default `mesh.position`. -/
def vzero : Vec3 := ⟨0, 0, 0⟩

/-- `THREE.Vector3.length`: the Euclidean norm. -/
noncomputable def Vec3.length (v : Vec3) : ℝ :=
  Real.sqrt (v.x ^ 2 + v.y ^ 2 + v.z ^ 2)

/-- `THREE.Vector3.distanceTo`: Euclidean distance between two vectors. -/
noncomputable def Vec3.distanceTo (v w : Vec3) : ℝ :=
  Real.sqrt ((v.x - w.x) ^ 2 + (v.y - w.y) ^ 2 + (v.z - w.z) ^ 2)

/-- `THREE.Vector3.multiplyScalar`. -/
def Vec3.smul (c : ℝ) (v : Vec3) : Vec3 :=
  ⟨c * v.x, c * v.y, c * v.z⟩

/-- `THREE.Vector3.addScaledVector v s`: `this + v * s`, componentwise. -/
def Vec3.addScaledVector (v w : Vec3) (s : ℝ) : Vec3 :=
  ⟨v.x + w.x * s, v.y + w.y * s, v.z + w.z * s⟩

/-- `THREE.Vector3.setLength l`: normalize then multiply by `l`, i.e. scale
by `l / length`.  In the real-number model a zero-length input divides by
zero and (by the convention `a / 0 = 0`) stays the zero vector; in the
JavaScript runtime the same input likewise fails to reach length `l`. -/
noncomputable def Vec3.setLength (v : Vec3) (l : ℝ) : Vec3 :=
  Vec3.smul (l / v.length) v

/-- The application mode enum of `src/types.ts`. -/
inductive AppMode
  | TREE
  | SCATTER
  | FOCUS
deriving DecidableEq

/-- The particle type tags of `ParticleData.type`. -/
inductive PKind
  | DECORATION
  | DUST
  | PHOTO
deriving DecidableEq

/-- `ParticleData` of `src/types.ts`: the mesh is reduced to its position,
alongside velocity, type tag and the immutable `initialPos` anchor. -/
structure Particle where
  pos : Vec3
  velocity : Vec3
  kind : PKind
  initialPos : Vec3

/-- The record pushed by `addParticle`: the mesh is placed at the random
position `rpos` and `initialPos` is its clone, so both coincide. -/
def mkParticle (k : PKind) (rpos rvel : Vec3) : Particle :=
  ⟨rpos, rvel, k, rpos⟩

/-- `addParticle` of `Experience.tsx` (startup path): push one particle
record onto the store; `rpos` and `rvel` stand for the `Math.random()`
draws for the initial position and the velocity. -/
def addParticle (store : List Particle) (k : PKind) (rpos rvel : Vec3) : List Particle :=
  store ++ [mkParticle k rpos rvel]

/-- The initial population of the scene: 1500 DECORATION, then 2500 DUST,
then one placeholder PHOTO, each appended by `addParticle`.  The random
draws are indexed by creation order. -/
def initStore (rpos rvel : ℕ → Vec3) : List Particle :=
  addParticle
    ((List.range 2500).foldl
      (fun s i => addParticle s PKind.DUST (rpos (1500 + i)) (rvel (1500 + i)))
      ((List.range 1500).foldl
        (fun s i => addParticle s PKind.DECORATION (rpos i) (rvel i)) []))
    PKind.PHOTO (rpos 4000) (rvel 4000)

/-- The particle pushed by the new-photo effect of `Experience.tsx`
(lines 213-239): the mesh is created by `new THREE.Mesh(frameGeo, mats)`
and never repositioned, so `mesh.position` is the origin and
`initialPos = mesh.position.clone()` is the origin as well; only the
velocity is a fresh random draw. -/
def mkNewPhotoParticle (rvel : Vec3) : Particle :=
  ⟨vzero, rvel, PKind.PHOTO, vzero⟩

/-- The new-photo path: push the photo particle onto the store. -/
def addNewPhoto (store : List Particle) (rvel : Vec3) : List Particle :=
  store ++ [mkNewPhotoParticle rvel]

/-- `particlesRef.current.filter(p => p.type === k)`. -/
def byKind (store : List Particle) (k : PKind) : List Particle :=
  store.filter (fun p => p.kind == k)

/-- Average distance from the finger tips 12, 16, 20 to the wrist
(landmark 0), as computed by `tips.reduce(...) / tips.length`. -/
noncomputable def avgTipWristDist (lm : ℕ → Vec3) : ℝ :=
  (((lm 12).distanceTo (lm 0) + (lm 16).distanceTo (lm 0)) + (lm 20).distanceTo (lm 0)) / 3

/-- The sequence of `setMode` calls issued by the gesture section of
`animate` (lines 304-325) on a frame with a detected hand: the pinch test
and then the fist / open-hand test, each guarded by a comparison with the
frame's `currentMode`.  The two tests are sequential `if` statements, not
an `if`/`else` chain. -/
noncomputable def gestureCalls (m : AppMode) (lm : ℕ → Vec3) : List AppMode :=
  (if (lm 4).distanceTo (lm 8) < 0.05 then
    (if m ≠ AppMode.FOCUS then [AppMode.FOCUS] else [])
  else [])
  ++
  (if avgTipWristDist lm < 0.25 then
    (if m ≠ AppMode.TREE then [AppMode.TREE] else [])
  else if avgTipWristDist lm > 0.4 then
    (if m ≠ AppMode.SCATTER then [AppMode.SCATTER] else [])
  else [])

/-- The mode after React processes the frame's queued `setMode` calls:
state updates are applied in order, so the last call wins; with no call
the mode is unchanged. -/
noncomputable def gestureFinalMode (m : AppMode) (lm : ℕ → Vec3) : AppMode :=
  (gestureCalls m lm).getLast?.getD m

/-- One guarded `setMode` application, the pattern
`if (currentMode !== s) setMode(s)`: the resulting mode and whether
`setMode` was called. -/
def applySignal (m s : AppMode) : AppMode × Bool :=
  if s ≠ m then (s, true) else (m, false)

/-- TREE mode: the normalized index `t = i / particleCount` (real division,
as in JavaScript). -/
noncomputable def treeT (i count : ℕ) : ℝ := (i : ℝ) / (count : ℝ)

/-- TREE mode: the cone radius `maxRadius * (1 - t)` with `maxRadius = 15`. -/
noncomputable def treeRadius (i count : ℕ) : ℝ := 15 * (1 - treeT i count)

/-- TREE mode target position of particle `i`: the spiral cone of
`animate` (lines 344-356). -/
noncomputable def treeTargetPos (i count : ℕ) : Vec3 :=
  ⟨Real.cos (treeT i count * 50 * Real.pi) * treeRadius i count,
   (treeT i count - 0.5) * 40,
   Real.sin (treeT i count * 50 * Real.pi) * treeRadius i count⟩

/-- SCATTER mode, before clamping:
`targetPos.copy(p.initialPos).addScaledVector(p.velocity, Math.sin(time * 0.001) * 20)`. -/
noncomputable def scatterDrift (initialPos velocity : Vec3) (time : ℝ) : Vec3 :=
  initialPos.addScaledVector velocity (Real.sin (time * 0.001) * 20)

/-- First clamp statement: `if (targetPos.length() < 8) targetPos.setLength(8)`. -/
noncomputable def clampLow (v : Vec3) : Vec3 :=
  if v.length < 8 then v.setLength 8 else v

/-- Both clamp statements in sequence; the second one,
`if (targetPos.length() > 20) targetPos.setLength(20)`, tests the vector
already updated by the first. -/
noncomputable def clampShell (v : Vec3) : Vec3 :=
  if (clampLow v).length > 20 then (clampLow v).setLength 20 else clampLow v

/-- The SCATTER mode target position: drift, then the radial shell clamp. -/
noncomputable def scatterTarget (initialPos velocity : Vec3) (time : ℝ) : Vec3 :=
  clampShell (scatterDrift initialPos velocity time)

/-- The focus-target selection of `animate` (lines 330-338): when the mode
is FOCUS and no target is held, pick the PHOTO particle at the random
index `r % photos.length` if any PHOTO exists, else keep the (absent)
target.  `r` stands for the `Math.floor(Math.random() * photos.length)`
draw, reduced modulo the photo count to stay in range. -/
def selectFocusTarget (m : AppMode) (ft : Option Particle)
    (store : List Particle) (r : ℕ) : Option Particle :=
  if m = AppMode.FOCUS ∧ ft.isNone then
    (if hp : 0 < (byKind store PKind.PHOTO).length then
      some ((byKind store PKind.PHOTO).get
        ⟨r % (byKind store PKind.PHOTO).length, Nat.mod_lt r hp⟩)
    else ft)
  else ft

/-- The second statement, `if (currentMode !== FOCUS) focusTarget = null`,
applied after the selection. -/
def updateFocusTarget (m : AppMode) (ft : Option Particle)
    (store : List Particle) (r : ℕ) : Option Particle :=
  if m ≠ AppMode.FOCUS then none else selectFocusTarget m ft store r

/-- One `parts` entry of the Gemini response: only the `inlineData.data`
payload matters to the loop. -/
structure GenPart where
  inlineData : Option String

/-- `candidate.content` of the Gemini response. -/
structure GenContent where
  parts : List GenPart

/-- One `candidates` entry of the Gemini response. -/
structure GenCandidate where
  content : Option GenContent

/-- The Gemini `generateContent` response, as accessed by the service. -/
structure GenResponse where
  candidates : Option (List GenCandidate)

/-- `response.candidates?.[0]?.content?.parts || []`: the parts of the
first candidate, or the empty list when any link is absent. -/
def responseParts (r : GenResponse) : List GenPart :=
  match r.candidates with
  | none => []
  | some [] => []
  | some (c :: _) =>
    match c.content with
    | none => []
    | some ct => ct.parts

/-- The `for (const part of ...)` loop of the service: the data of the
first part carrying `inlineData`, if any. -/
def firstInlineData : List GenPart → Option String
  | [] => none
  | p :: rest =>
    match p.inlineData with
    | some d => some d
    | none => firstInlineData rest

/-- `generateChristmasImage` of the Gemini service, as a function of the
external response: return the first inline image as a data URL, else
throw `No image generated.`. -/
def generateChristmasImage (r : GenResponse) : Except String String :=
  match firstInlineData (responseParts r) with
  | some d => Except.ok ("data:image/png;base64," ++ d)
  | none => Except.error "No image generated."

section BasicVec3Lemmas

lemma Vec3.length_nonneg (v : Vec3) : 0 ≤ v.length :=
  Real.sqrt_nonneg _

lemma Vec3.length_vzero : vzero.length = 0 := by
  simp [Vec3.length, vzero]

lemma Vec3.smul_vzero (c : ℝ) : Vec3.smul c vzero = vzero := by
  simp [Vec3.smul, vzero]

lemma Vec3.setLength_vzero (l : ℝ) : vzero.setLength l = vzero := by
  simp [Vec3.setLength, Vec3.smul_vzero]

lemma Vec3.length_eq_zero_iff (v : Vec3) : v.length = 0 ↔ v = vzero := by
  constructor
  · intro h
    have hsum : v.x ^ 2 + v.y ^ 2 + v.z ^ 2 = 0 := by
      have hle : v.x ^ 2 + v.y ^ 2 + v.z ^ 2 ≤ 0 := Real.sqrt_eq_zero'.mp h
      nlinarith [sq_nonneg v.x, sq_nonneg v.y, sq_nonneg v.z]
    have hx : v.x = 0 := by nlinarith [sq_nonneg v.y, sq_nonneg v.z, sq_nonneg v.x]
    have hy : v.y = 0 := by nlinarith [sq_nonneg v.y, sq_nonneg v.z, sq_nonneg v.x]
    have hz : v.z = 0 := by nlinarith [sq_nonneg v.y, sq_nonneg v.z, sq_nonneg v.x]
    cases v
    simp_all [vzero]
  · rintro rfl
    exact Vec3.length_vzero

lemma Vec3.length_smul (c : ℝ) (v : Vec3) :
    (Vec3.smul c v).length = |c| * v.length := by
  unfold Vec3.length Vec3.smul
  have h : (c * v.x) ^ 2 + (c * v.y) ^ 2 + (c * v.z) ^ 2
      = c ^ 2 * (v.x ^ 2 + v.y ^ 2 + v.z ^ 2) := by ring
  rw [h, Real.sqrt_mul (sq_nonneg c), Real.sqrt_sq_eq_abs]

lemma Vec3.length_setLength (v : Vec3) (l : ℝ) (hv : v ≠ vzero) (hl : 0 ≤ l) :
    (v.setLength l).length = l := by
  have hv0 : v.length ≠ 0 := fun h => hv ((Vec3.length_eq_zero_iff v).mp h)
  have hpos : 0 < v.length := lt_of_le_of_ne (Vec3.length_nonneg v) (Ne.symm hv0)
  rw [Vec3.setLength, Vec3.length_smul, abs_of_nonneg (div_nonneg hl hpos.le),
    div_mul_cancel₀ _ hv0]

lemma Vec3.distanceTo_xaxis (a b : ℝ) :
    Vec3.distanceTo ⟨a, 0, 0⟩ ⟨b, 0, 0⟩ = |a - b| := by
  unfold Vec3.distanceTo
  simp [Real.sqrt_sq_eq_abs]

end BasicVec3Lemmas

section MotionLemmas

lemma clampLow_vzero : clampLow vzero = vzero := by
  rw [clampLow, if_pos]
  · exact Vec3.setLength_vzero 8
  · rw [Vec3.length_vzero]; norm_num

lemma clampShell_vzero : clampShell vzero = vzero := by
  unfold clampShell
  rw [clampLow_vzero, Vec3.length_vzero, if_neg (by norm_num)]

lemma scatterDrift_sin_zero (ip v : Vec3) (t : ℝ) (hs : Real.sin (t * 0.001) = 0) :
    scatterDrift ip v t = ip := by
  unfold scatterDrift Vec3.addScaledVector
  rw [hs]
  simp

lemma clampShell_length_bounds (v : Vec3) (hv : v ≠ vzero) :
    8 ≤ (clampShell v).length ∧ (clampShell v).length ≤ 20 := by
  unfold clampShell clampLow
  by_cases h1 : v.length < 8
  · rw [if_pos h1]
    have hL : (v.setLength 8).length = 8 :=
      Vec3.length_setLength v 8 hv (by norm_num)
    rw [if_neg (by rw [hL]; norm_num), hL]
    norm_num
  · rw [if_neg h1]
    by_cases h2 : v.length > 20
    · rw [if_pos h2, Vec3.length_setLength v 20 hv (by norm_num)]
      norm_num
    · rw [if_neg h2]
      push_neg at h1 h2
      exact ⟨h1, h2⟩

end MotionLemmas

section GestureLemmas

lemma gestureFinalMode_pinch_fist (m : AppMode) (lm : ℕ → Vec3)
    (h1 : (lm 4).distanceTo (lm 8) < 0.05) (h2 : avgTipWristDist lm < 0.25) :
    gestureFinalMode m lm = if m = AppMode.TREE then AppMode.FOCUS else AppMode.TREE := by
  unfold gestureFinalMode gestureCalls
  rw [if_pos h1, if_pos h2]
  cases m <;> rfl

lemma gestureFinalMode_no_pinch (m : AppMode) (lm : ℕ → Vec3)
    (hp : ¬ (lm 4).distanceTo (lm 8) < 0.05) :
    gestureFinalMode m lm =
      (if avgTipWristDist lm < 0.25 then AppMode.TREE
       else if avgTipWristDist lm > 0.4 then AppMode.SCATTER
       else m) := by
  unfold gestureFinalMode gestureCalls
  rw [if_neg hp]
  by_cases h1 : avgTipWristDist lm < 0.25
  · rw [if_pos h1, if_pos h1]
    cases m <;> rfl
  · rw [if_neg h1, if_neg h1]
    by_cases h2 : avgTipWristDist lm > 0.4
    · rw [if_pos h2, if_pos h2]
      cases m <;> rfl
    · rw [if_neg h2, if_neg h2]
      rfl

/-- A concrete gesture sample: the index tip (landmark 8) sits at distance
`|p|` from the thumb tip, and the tips 12, 16, 20 sit at distance `|d|`
from the wrist; every other landmark is at the origin. -/
def lmSample (p d : ℝ) : ℕ → Vec3 := fun i =>
  if i = 8 then ⟨p, 0, 0⟩
  else if i = 12 ∨ i = 16 ∨ i = 20 then ⟨d, 0, 0⟩
  else ⟨0, 0, 0⟩

lemma lmSample_pinchDist (p d : ℝ) :
    (lmSample p d 4).distanceTo (lmSample p d 8) = |p| := by
  have h4 : lmSample p d 4 = ⟨0, 0, 0⟩ := by norm_num [lmSample]
  have h8 : lmSample p d 8 = ⟨p, 0, 0⟩ := by norm_num [lmSample]
  rw [h4, h8, Vec3.distanceTo_xaxis]
  simp

lemma lmSample_avg (p d : ℝ) :
    avgTipWristDist (lmSample p d) = |d| := by
  have h0 : lmSample p d 0 = ⟨0, 0, 0⟩ := by norm_num [lmSample]
  have h12 : lmSample p d 12 = ⟨d, 0, 0⟩ := by norm_num [lmSample]
  have h16 : lmSample p d 16 = ⟨d, 0, 0⟩ := by norm_num [lmSample]
  have h20 : lmSample p d 20 = ⟨d, 0, 0⟩ := by norm_num [lmSample]
  unfold avgTipWristDist
  rw [h0, h12, h16, h20, Vec3.distanceTo_xaxis]
  rw [sub_zero]
  ring

end GestureLemmas

section StoreLemmas

lemma foldl_addParticle (init : List Particle) (k : PKind) (f g : ℕ → Vec3) (n : ℕ) :
    (List.range n).foldl (fun s i => addParticle s k (f i) (g i)) init
      = init ++ (List.range n).map (fun i => mkParticle k (f i) (g i)) := by
  induction n with
  | zero => simp
  | succ n ih =>
    rw [List.range_succ, List.foldl_append, ih, List.map_append]
    simp [addParticle]

lemma map_kind_map_range (k : PKind) (f g : ℕ → Vec3) (n : ℕ) :
    ((List.range n).map (fun i => mkParticle k (f i) (g i))).map Particle.kind
      = List.replicate n k := by
  rw [List.map_map]
  refine List.eq_replicate_iff.mpr ⟨by simp, ?_⟩
  intro b hb
  rw [List.mem_map] at hb
  obtain ⟨i, _, rfl⟩ := hb
  rfl

end StoreLemmas

section ServiceLemmas

lemma firstInlineData_eq_none_iff (l : List GenPart) :
    firstInlineData l = none ↔ ∀ p ∈ l, p.inlineData = none := by
  induction l with
  | nil => simp [firstInlineData]
  | cons q rest ih =>
    cases hq : q.inlineData with
    | none => simp [firstInlineData, hq, ih]
    | some d => simp [firstInlineData, hq]

lemma firstInlineData_of_find? (l : List GenPart) (p : GenPart)
    (h : l.find? (fun q => q.inlineData.isSome) = some p) :
    ∃ d, p.inlineData = some d ∧ firstInlineData l = some d := by
  induction l with
  | nil => simp [List.find?] at h
  | cons q rest ih =>
    cases hq : q.inlineData with
    | some d =>
      simp only [List.find?, hq, Option.isSome_some] at h
      obtain rfl : q = p := by injection h
      exact ⟨d, hq, by simp [firstInlineData, hq]⟩
    | none =>
      simp only [List.find?, hq, Option.isSome_none] at h
      obtain ⟨d, hd, hfd⟩ := ih h
      exact ⟨d, hd, by simp [firstInlineData, hq, hfd]⟩

end ServiceLemmas

/-! ## Claim theorems -/

/-- C1 counterexample: a frame in which both the pinch condition
(distance between landmarks 4 and 8 below 0.05) and the fist condition
(average tip-to-wrist distance below 0.25) hold, processed from current
mode FOCUS, ends in mode TREE, not FOCUS: the fist test is a separate
`if` statement, so its `setMode(TREE)` call is issued after the pinch
test and wins. -/
theorem c1_pinch_priority_counterexample :
    (lmSample 0 0 4).distanceTo (lmSample 0 0 8) < 0.05 ∧
    avgTipWristDist (lmSample 0 0) < 0.25 ∧
    gestureFinalMode AppMode.FOCUS (lmSample 0 0) = AppMode.TREE ∧
    gestureFinalMode AppMode.FOCUS (lmSample 0 0) ≠ AppMode.FOCUS := by
  have h1 : (lmSample 0 0 4).distanceTo (lmSample 0 0 8) < 0.05 := by
    rw [lmSample_pinchDist, abs_zero]; norm_num
  have h2 : avgTipWristDist (lmSample 0 0) < 0.25 := by
    rw [lmSample_avg, abs_zero]; norm_num
  have hfin := gestureFinalMode_pinch_fist AppMode.FOCUS (lmSample 0 0) h1 h2
  refine ⟨h1, h2, ?_, ?_⟩
  · rw [hfin]; rfl
  · rw [hfin]; decide

/-- C1 (amended): when both the pinch condition and the fist condition
hold in the same frame, the two tests both fire and the last issued
signal determines the resulting mode: from current mode TREE the fist
test is silenced by its `currentMode !== TREE` guard and the pinch's
FOCUS signal stands, while from any other current mode the fist's TREE
signal is issued after the pinch's FOCUS signal and the frame ends in
TREE. -/
theorem c1_pinch_fist_last_signal_wins (m : AppMode) (lm : ℕ → Vec3)
    (h1 : (lm 4).distanceTo (lm 8) < 0.05) (h2 : avgTipWristDist lm < 0.25) :
    gestureFinalMode m lm =
      (if m = AppMode.TREE then AppMode.FOCUS else AppMode.TREE) :=
  gestureFinalMode_pinch_fist m lm h1 h2

theorem c1_pinch_fist_last_signal_wins_witness :
    gestureFinalMode AppMode.SCATTER (lmSample 0 0)
      = (if AppMode.SCATTER = AppMode.TREE then AppMode.FOCUS else AppMode.TREE) :=
  c1_pinch_fist_last_signal_wins AppMode.SCATTER (lmSample 0 0)
    (by rw [lmSample_pinchDist, abs_zero]; norm_num)
    (by rw [lmSample_avg, abs_zero]; norm_num)

/-- C2 counterexample: a particle anchored at the origin (as a new-photo
particle is), with any velocity, at time 0 (where `sin(time * 0.001) = 0`)
has pre-clamp SCATTER target equal to the zero vector; the radial clamp
leaves it at length 0, outside the interval `[8, 20]`. -/
theorem c2_scatter_shell_counterexample :
    ¬ (8 ≤ (scatterTarget vzero ⟨1, 0, 0⟩ 0).length ∧
       (scatterTarget vzero ⟨1, 0, 0⟩ 0).length ≤ 20) := by
  have hdrift : scatterDrift vzero ⟨1, 0, 0⟩ 0 = vzero :=
    scatterDrift_sin_zero _ _ _ (by norm_num [Real.sin_zero])
  simp only [scatterTarget]
  rw [hdrift, clampShell_vzero, Vec3.length_vzero]
  norm_num

/-- C2 (amended): for every initial position, velocity and time whose
pre-clamp drift vector `initialPosition + velocity * sin(time * 0.001) * 20`
is nonzero, the radially clamped SCATTER target has Euclidean length in
`[8, 20]`; at the zero drift vector the rescale-to-length-8 divides by a
zero length and the clamped target stays the zero vector of length 0. -/
theorem c2_scatter_shell_amended (ip v : Vec3) (t : ℝ)
    (h : scatterDrift ip v t ≠ vzero) :
    8 ≤ (scatterTarget ip v t).length ∧ (scatterTarget ip v t).length ≤ 20 :=
  clampShell_length_bounds _ h

theorem c2_scatter_shell_amended_witness :
    8 ≤ (scatterTarget ⟨10, 0, 0⟩ vzero 0).length ∧
    (scatterTarget ⟨10, 0, 0⟩ vzero 0).length ≤ 20 :=
  c2_scatter_shell_amended ⟨10, 0, 0⟩ vzero 0 (by
    rw [scatterDrift_sin_zero _ _ _ (by norm_num [Real.sin_zero])]
    intro hEq
    simp only [vzero, Vec3.mk.injEq] at hEq
    norm_num at hEq)

/-- C3: for every particle count > 0 and indices `i ≤ j < count`, the
TREE-mode target radius `15 * (1 - i / particleCount)` is monotonically
non-increasing in the index: the radius at `j` is at most the radius at
`i` (the cone tapers). -/
theorem c3_tree_radius_antitone (count i j : ℕ) (hc : 0 < count)
    (hij : i ≤ j) (hjc : j < count) :
    treeRadius j count ≤ treeRadius i count := by
  unfold treeRadius treeT
  have hcpos : (0 : ℝ) < (count : ℝ) := by exact_mod_cast hc
  have hmono : (i : ℝ) / (count : ℝ) ≤ (j : ℝ) / (count : ℝ) :=
    (div_le_div_iff_of_pos_right hcpos).mpr (by exact_mod_cast hij)
  linarith

theorem c3_tree_radius_antitone_witness :
    treeRadius 2 3 ≤ treeRadius 1 3 :=
  c3_tree_radius_antitone 3 1 2 (by norm_num) (by norm_num) (by norm_num)

/-- C4: on a frame whose pinch condition fails, the fist / open-hand test
alone decides the outcome: average tip-to-wrist distance below 0.25 ends
the frame in TREE, above 0.4 ends it in SCATTER, and values in the dead
zone leave the mode unchanged; in particular average distance 0.2 yields
TREE, 0.3 leaves the mode unchanged, and 0.45 yields SCATTER. -/
theorem c4_fist_open_thresholds :
    (∀ (m : AppMode) (lm : ℕ → Vec3), ¬ (lm 4).distanceTo (lm 8) < 0.05 →
      gestureFinalMode m lm =
        (if avgTipWristDist lm < 0.25 then AppMode.TREE
         else if avgTipWristDist lm > 0.4 then AppMode.SCATTER
         else m)) ∧
    (∀ m : AppMode, gestureFinalMode m (lmSample 1 0.2) = AppMode.TREE) ∧
    (∀ m : AppMode, gestureFinalMode m (lmSample 1 0.3) = m) ∧
    (∀ m : AppMode, gestureFinalMode m (lmSample 1 0.45) = AppMode.SCATTER) := by
  have hnp : ∀ d : ℝ, ¬ (lmSample 1 d 4).distanceTo (lmSample 1 d 8) < 0.05 := by
    intro d
    rw [lmSample_pinchDist, abs_one]
    norm_num
  refine ⟨gestureFinalMode_no_pinch, ?_, ?_, ?_⟩ <;> intro m
  · rw [gestureFinalMode_no_pinch m _ (hnp 0.2), lmSample_avg,
      abs_of_nonneg (by norm_num : (0 : ℝ) ≤ 0.2),
      if_pos (by norm_num : (0.2 : ℝ) < 0.25)]
  · rw [gestureFinalMode_no_pinch m _ (hnp 0.3), lmSample_avg,
      abs_of_nonneg (by norm_num : (0 : ℝ) ≤ 0.3),
      if_neg (by norm_num : ¬ (0.3 : ℝ) < 0.25),
      if_neg (by norm_num : ¬ (0.3 : ℝ) > 0.4)]
  · rw [gestureFinalMode_no_pinch m _ (hnp 0.45), lmSample_avg,
      abs_of_nonneg (by norm_num : (0 : ℝ) ≤ 0.45),
      if_neg (by norm_num : ¬ (0.45 : ℝ) < 0.25),
      if_pos (by norm_num : (0.45 : ℝ) > 0.4)]

theorem c4_fist_open_thresholds_witness :
    gestureFinalMode AppMode.FOCUS (lmSample 1 0.2) = AppMode.TREE :=
  c4_fist_open_thresholds.2.1 AppMode.FOCUS

/-- C5: guarded `setMode` application is idempotent: one application of a
signal `s` yields mode `s`; a second application of the same signal keeps
that mode and performs no mode change (the `currentMode !== s` guard
blocks the `setMode` call). -/
theorem c5_apply_signal_idempotent (m s : AppMode) :
    (applySignal m s).1 = s ∧
    (applySignal (applySignal m s).1 s).1 = (applySignal m s).1 ∧
    (applySignal (applySignal m s).1 s).2 = false := by
  cases m <;> cases s <;> simp [applySignal]

/-- C6: at scene initialization exactly 1500 DECORATION particles, then
2500 DUST particles, then 1 placeholder PHOTO particle are appended, in
that insertion order, for whatever random draws occur, so the store holds
exactly 4001 particles at startup. -/
theorem c6_initial_population (rpos rvel : ℕ → Vec3) :
    (initStore rpos rvel).map Particle.kind
      = List.replicate 1500 PKind.DECORATION ++ List.replicate 2500 PKind.DUST
        ++ [PKind.PHOTO] ∧
    (initStore rpos rvel).length = 4001 := by
  unfold initStore
  rw [foldl_addParticle, foldl_addParticle]
  constructor
  · simp only [addParticle, List.nil_append, List.map_append, map_kind_map_range,
      List.append_assoc]
    rfl
  · simp only [addParticle, List.length_append, List.length_map, List.length_range,
      List.length_nil, List.length_singleton, List.nil_append]

/-- C7: adding a PHOTO particle — through `addParticle` at startup or
through the new-photo path — appends exactly one record: the store length
grows by exactly 1, the previously stored prefix is unchanged (append-only,
insertion order preserved), and the new particle is reachable by filtering
the store for kind PHOTO. -/
theorem c7_add_photo_append (store : List Particle) (rpos rvel : Vec3) :
    ((addParticle store PKind.PHOTO rpos rvel).length = store.length + 1 ∧
     (addParticle store PKind.PHOTO rpos rvel).take store.length = store ∧
     mkParticle PKind.PHOTO rpos rvel
       ∈ byKind (addParticle store PKind.PHOTO rpos rvel) PKind.PHOTO) ∧
    ((addNewPhoto store rvel).length = store.length + 1 ∧
     (addNewPhoto store rvel).take store.length = store ∧
     mkNewPhotoParticle rvel ∈ byKind (addNewPhoto store rvel) PKind.PHOTO) := by
  refine ⟨⟨?_, ?_, ?_⟩, ?_, ?_, ?_⟩
  · simp [addParticle]
  · rw [addParticle, List.take_left]
  · refine List.mem_filter.mpr ⟨?_, by simp [mkParticle]⟩
    exact List.mem_append_right _ (List.mem_singleton_self _)
  · simp [addNewPhoto]
  · rw [addNewPhoto, List.take_left]
  · refine List.mem_filter.mpr ⟨?_, by simp [mkNewPhotoParticle]⟩
    exact List.mem_append_right _ (List.mem_singleton_self _)

/-- C8: the focus target is non-null only while the mode is FOCUS: a
frame processed with any other mode ends with the target cleared to
`none`; a frame entering FOCUS with no target selects some PHOTO particle
of the store when one exists, and keeps no target (FOCUS remaining the
mode of the frame) when no PHOTO particle exists. -/
theorem c8_focus_target_invariant (m : AppMode) (ft : Option Particle)
    (store : List Particle) (r : ℕ) :
    (m ≠ AppMode.FOCUS → updateFocusTarget m ft store r = none) ∧
    (m = AppMode.FOCUS → ft = none → 0 < (byKind store PKind.PHOTO).length →
      ∃ p, updateFocusTarget m ft store r = some p ∧ p.kind = PKind.PHOTO ∧
        p ∈ byKind store PKind.PHOTO) ∧
    (m = AppMode.FOCUS → ft = none → (byKind store PKind.PHOTO).length = 0 →
      updateFocusTarget m ft store r = none) := by
  refine ⟨?_, ?_, ?_⟩
  · intro hm
    rw [updateFocusTarget, if_pos hm]
  · intro hm hft hlen
    subst hm; subst hft
    have hmem : (byKind store PKind.PHOTO).get
        ⟨r % (byKind store PKind.PHOTO).length, Nat.mod_lt r hlen⟩
        ∈ byKind store PKind.PHOTO := List.get_mem _ _ _
    refine ⟨_, ?_, ?_, hmem⟩
    · rw [updateFocusTarget, if_neg (by simp), selectFocusTarget,
        if_pos (by simp), dif_pos hlen]
    · have hk := (List.mem_filter.mp hmem).2
      simpa using hk
  · intro hm hft hlen
    subst hm; subst hft
    rw [updateFocusTarget, if_neg (by simp), selectFocusTarget,
      if_pos (by simp), dif_neg (by omega)]

theorem c8_focus_target_invariant_witness :
    updateFocusTarget AppMode.TREE none [] 0 = none ∧
    (∃ p, updateFocusTarget AppMode.FOCUS none [mkParticle PKind.PHOTO vzero vzero] 0
        = some p ∧ p.kind = PKind.PHOTO ∧
        p ∈ byKind [mkParticle PKind.PHOTO vzero vzero] PKind.PHOTO) :=
  ⟨(c8_focus_target_invariant AppMode.TREE none [] 0).1 (by decide),
   (c8_focus_target_invariant AppMode.FOCUS none
      [mkParticle PKind.PHOTO vzero vzero] 0).2.1 rfl rfl
     (by simp [byKind, mkParticle, List.filter])⟩

/-- C9: the image generation operation fails — with the
`No image generated.` error — exactly when the external response contains
no part carrying inline image data; when some part does, the first such
part's data is returned as a data URL; and an absent candidates list (a
malformed response) takes the same failure path. -/
theorem c9_generate_image_spec (r : GenResponse) :
    (generateChristmasImage r = Except.error "No image generated." ↔
      ∀ p ∈ responseParts r, p.inlineData = none) ∧
    (∀ p, (responseParts r).find? (fun q => q.inlineData.isSome) = some p →
      ∃ d, p.inlineData = some d ∧
        generateChristmasImage r = Except.ok ("data:image/png;base64," ++ d)) ∧
    (r.candidates = none → generateChristmasImage r = Except.error "No image generated.") := by
  refine ⟨?_, ?_, ?_⟩
  · cases hf : firstInlineData (responseParts r) with
    | none =>
      simp only [generateChristmasImage, hf]
      exact iff_of_true (by trivial) ((firstInlineData_eq_none_iff _).mp hf)
    | some d =>
      simp only [generateChristmasImage, hf]
      refine iff_of_false (by simp) ?_
      intro hall
      rw [(firstInlineData_eq_none_iff _).mpr hall] at hf
      exact Option.noConfusion hf
  · intro p hfind
    obtain ⟨d, hd, hfd⟩ := firstInlineData_of_find? _ _ hfind
    exact ⟨d, hd, by simp [generateChristmasImage, hfd]⟩
  · intro hc
    have hparts : responseParts r = [] := by
      rw [responseParts, hc]
    rw [generateChristmasImage, hparts]
    rfl

theorem c9_generate_image_spec_witness :
    ∃ d, (⟨some "QUJD"⟩ : GenPart).inlineData = some d ∧
      generateChristmasImage ⟨some [⟨some ⟨[⟨none⟩, ⟨some "QUJD"⟩]⟩⟩]⟩
        = Except.ok ("data:image/png;base64," ++ d) :=
  (c9_generate_image_spec ⟨some [⟨some ⟨[⟨none⟩, ⟨some "QUJD"⟩]⟩⟩]⟩).2.1
    ⟨some "QUJD"⟩ rfl

/-- C10: a PHOTO particle added after startup through the new-photo path
is created with `initialPos` equal to the origin (the default mesh
position; no random position is assigned, unlike the startup path), so in
SCATTER mode its drift anchor is the origin: at any time where
`sin(time * 0.001) = 0` its pre-clamp target is the zero vector, whose
length — the divisor of the rescale-to-length-8 step — is zero, and the
clamped target degenerates to the zero vector instead of reaching the
shell. -/
theorem c10_new_photo_origin (store : List Particle) (rvel : Vec3) (t : ℝ)
    (hs : Real.sin (t * 0.001) = 0) :
    (addNewPhoto store rvel).getLast? = some (mkNewPhotoParticle rvel) ∧
    (mkNewPhotoParticle rvel).initialPos = vzero ∧
    scatterDrift (mkNewPhotoParticle rvel).initialPos rvel t = vzero ∧
    (scatterDrift (mkNewPhotoParticle rvel).initialPos rvel t).length = 0 ∧
    scatterTarget (mkNewPhotoParticle rvel).initialPos rvel t = vzero := by
  have hip : (mkNewPhotoParticle rvel).initialPos = vzero := rfl
  have hdrift : scatterDrift vzero rvel t = vzero := scatterDrift_sin_zero _ _ _ hs
  refine ⟨?_, rfl, ?_, ?_, ?_⟩
  · rw [addNewPhoto]
    exact List.getLast?_concat _
  · rw [hip, hdrift]
  · rw [hip, hdrift, Vec3.length_vzero]
  · rw [scatterTarget, hip, hdrift, clampShell_vzero]

theorem c10_new_photo_origin_witness :
    (addNewPhoto [] vzero).getLast? = some (mkNewPhotoParticle vzero) ∧
    (mkNewPhotoParticle vzero).initialPos = vzero ∧
    scatterDrift (mkNewPhotoParticle vzero).initialPos vzero 0 = vzero ∧
    (scatterDrift (mkNewPhotoParticle vzero).initialPos vzero 0).length = 0 ∧
    scatterTarget (mkNewPhotoParticle vzero).initialPos vzero 0 = vzero :=
  c10_new_photo_origin [] vzero 0 (by norm_num [Real.sin_zero])
